import Mathlib

/-!
Verification of the FusionMCP script-safety core: a shallow embedding of
`src/fusionmcp/command_executor.py`, `src/fusionmcp/fusion_command_executor.py`,
`src/fusionmcp/fusion_mcp_main.py` and `src/fusionmcp/plugin_manager.py`,
followed by theorems about the validator, the sandboxed executor, the
single-repair orchestration loop and the plugin registry.
-/

namespace FusionMCP

/-- A single-quote character, built from its code point (39). -/
def squoteChar : Char := Char.ofNat 39

/-- A double-quote character, built from its code point (34). -/
def dquoteChar : Char := Char.ofNat 34

/-- The one-character string containing a single quote. -/
def squote : String := String.mk [squoteChar]

/-- The newline character. -/
def newlineChar : Char := Char.ofNat 10

/-- Split a character list at every occurrence of `sep`, keeping empty
pieces, with `acc` the (reversed) piece under construction. -/
def splitOnCharAux (sep : Char) : List Char → List Char → List String
  | [], acc => [String.mk acc.reverse]
  | c :: t, acc =>
      if c = sep then String.mk acc.reverse :: splitOnCharAux sep t []
      else splitOnCharAux sep t (c :: acc)

/-- Python's `script.split('\n')`: the list of lines, empty pieces kept. -/
def splitLines (s : String) : List String :=
  splitOnCharAux newlineChar s.toList []

/-- Python's `line.strip()`: drop whitespace from both ends. -/
def pyStrip (s : String) : String :=
  String.mk ((s.toList.dropWhile Char.isWhitespace).reverse.dropWhile
    Char.isWhitespace).reverse

/-- `containsSubAux sub l` is true when `sub` occurs as a contiguous
substring of `l` (the empty `sub` occurs in every list). -/
def containsSubAux (sub : List Char) : List Char → Bool
  | [] => sub.isEmpty
  | c :: t => sub.isPrefixOf (c :: t) || containsSubAux sub t

/-- `containsSub s sub` is true when `sub` occurs as a contiguous substring
of `s`; this models Python's `sub in s` test on strings. -/
def containsSub (s sub : String) : Bool := containsSubAux sub.toList s.toList

/-!
## Python AST model

The fragment of the Python abstract syntax that the validator
(`ScriptValidator.validate_script`) inspects and that the executed scripts of
interest use: `ast.Import`, `ast.ImportFrom`, `ast.Call`, `ast.Name`,
`ast.Attribute`, string constants, expression statements, `raise` statements
and function definitions (whose bodies give the nested positions that
`ast.walk` reaches).
-/

inductive PyAst where
  | importS (names : List String)
  | importFrom (module : Option String) (names : List String)
  | call (func : PyAst) (args : List PyAst)
  | name (id : String)
  | attributeAccess (value : PyAst) (attr : String)
  | constStr (s : String)
  | exprStmt (value : PyAst)
  | raiseStmt (exc : Option PyAst)
  | functionDef (fname : String) (body : List PyAst)

/-!
`ast.walk(tree)` enumerates every node of the tree (breadth-first in
CPython).  The validator's per-node checks are insensitive to the visit
order — each node contributes its own errors independently — so we
enumerate the nodes depth-first, which gives the same set of visited nodes.
-/

mutual

/-- All nodes of a tree, the root included (models the node set of
`ast.walk`). -/
def walk : PyAst → List PyAst
  | .importS ns => [.importS ns]
  | .importFrom m ns => [.importFrom m ns]
  | .call f args => .call f args :: (walk f ++ walkList args)
  | .name i => [.name i]
  | .attributeAccess v a => .attributeAccess v a :: walk v
  | .constStr s => [.constStr s]
  | .exprStmt e => .exprStmt e :: walk e
  | .raiseStmt (some e) => .raiseStmt (some e) :: walk e
  | .raiseStmt none => [.raiseStmt none]
  | .functionDef n body => .functionDef n body :: walkList body

/-- All nodes of a list of trees. -/
def walkList : List PyAst → List PyAst
  | [] => []
  | s :: rest => walk s ++ walkList rest

end

/-- `ScriptValidator._get_attr_name`: reconstruct the dotted name of an
attribute-access chain; non-`Name`/`Attribute` roots give `""`. -/
def getAttrName : PyAst → String
  | .name i => i
  | .attributeAccess v a => getAttrName v ++ "." ++ a
  | _ => ""

/-- `ScriptValidator._get_function_name`, applied to the `func` field of an
`ast.Call` node. -/
def getFunctionName : PyAst → String
  | .name i => i
  | .attributeAccess v a => getAttrName v ++ "." ++ a
  | _ => ""

/-- The validation-result dictionary
`{'is_safe': ..., 'errors': [...], 'warnings': [...]}`. -/
structure Verdict where
  is_safe : Bool
  errors : List String
  warnings : List String
  deriving DecidableEq, Repr

/-- The error text `f"Dangerous import found: {alias.name}"`. -/
def importErr (m : String) : String := "Dangerous import found: " ++ m

/-- The error text `f"Dangerous import found: from {node.module}"`. -/
def importFromErr (m : String) : String := "Dangerous import found: from " ++ m

/-- The error text `f"Dangerous function call: {func_name}"`. -/
def callErr (f : String) : String := "Dangerous function call: " ++ f

/-- One step of the `ast.walk` loop of `validate_script`: flag dangerous
imports (`Import` / `ImportFrom`) and dangerous calls against the active
denylists `di` (imports) and `df` (functions); every other node kind is
skipped by the `isinstance` chain. -/
def checkNode (di df : List String) (v : Verdict) : PyAst → Verdict
  | .importS ns =>
      ns.foldl (fun v a =>
        if a ∈ di then
          { v with errors := v.errors ++ [importErr a], is_safe := false }
        else v) v
  | .importFrom (some mm) _ =>
      if mm ∈ di then
        { v with errors := v.errors ++ [importFromErr mm], is_safe := false }
      else v
  | .importFrom none _ => v
  | .call f _ =>
      if getFunctionName f ∈ df then
        { v with errors := v.errors ++ [callErr (getFunctionName f)], is_safe := false }
      else v
  | _ => v

/-- A word character in the sense of the regex `\b` boundary:
`[A-Za-z0-9_]`. -/
def isWordChar (c : Char) : Bool := c.isAlphanum || c = '_'

/-- A regex word boundary next to an optional neighbouring character. -/
def boundaryOk : Option Char → Bool
  | some c => !isWordChar c
  | none => true

/-- The token `w` occurs at the head of `l` with word boundaries on both
sides (`prev` is the character immediately before `l`, if any). -/
def tokenHereOk (w : List Char) (prev : Option Char) (l : List Char) : Bool :=
  w.isPrefixOf l && boundaryOk prev && boundaryOk (l.drop w.length).head?

/-- Scan of a line for a whole-word occurrence of `w`. -/
def hasTokenAux (w : List Char) : Option Char → List Char → Bool
  | _, [] => false
  | prev, c :: t => tokenHereOk w prev (c :: t) || hasTokenAux w (some c) t

/-- `re.search(r'\b(open|file)\b', line)` for a single word `w`: the word
occurs somewhere in `line` delimited by word boundaries. -/
def hasWordToken (w : String) (line : String) : Bool :=
  hasTokenAux w.toList none line.toList

/-- The number of quote characters (single or double) in a line. -/
def quoteCount (line : String) : Nat :=
  (line.toList.filter (fun c => c = squoteChar || c = dquoteChar)).length

/-- The line-oriented heuristic of `validate_script`:
`re.search(r'\b(open|file)\b', line) and re.search(r'['"].*['"]', line)`.
The second regex matches exactly when the line holds two quote characters
in order (the `.*` between them is unconstrained), i.e. when the line has
at least two quote characters. -/
def lineFlag (line : String) : Bool :=
  (hasWordToken "open" line || hasWordToken "file" line)
    && decide (2 ≤ quoteCount line)

/-- The warning text
`f"Potential file operation on line {i}: {line.strip()}"`. -/
def warnMsg (i : Nat) (line : String) : String :=
  "Potential file operation on line " ++ toString i ++ ": " ++ pyStrip line

/-- The warnings gathered by the `for i, line in enumerate(lines, 1)` pass
over `script.split('\n')`. -/
def lineWarnings (lines : List String) : List String :=
  lines.enum.filterMap
    (fun p => if lineFlag p.2 then some (warnMsg (p.1 + 1) p.2) else none)

/-- A candidate source text together with the outcome of `ast.parse` on it.
The Python parser is the standard library's; the embedding carries its
result (`.ok` with the body of the parsed `ast.Module`, or `.error` with
the syntax-error text) alongside the raw text, which the line heuristic
still scans. -/
structure Script where
  text : String
  parse : Except String (List PyAst)

/-- The shared body of `ScriptValidator.validate_script` and
`FusionScriptValidator.validate_script` (the two classes differ only in
their denylist contents): start from
`{'is_safe': True, 'errors': [], 'warnings': []}`; on a parse failure
append the single `Syntax error: ...` error and set `is_safe` to false;
otherwise run the node checks over every walked node and then the
line-oriented warning pass. -/
def validateWith (di df : List String) (s : Script) : Verdict :=
  match s.parse with
  | .error msg => { is_safe := false, errors := ["Syntax error: " ++ msg], warnings := [] }
  | .ok body =>
      let v := (walkList body).foldl (checkNode di df)
        { is_safe := true, errors := [], warnings := [] }
      { v with warnings := v.warnings ++ lineWarnings (splitLines s.text) }

namespace ScriptValidator

/-- `ScriptValidator.DANGEROUS_FUNCTIONS` (generic profile). -/
def DANGEROUS_FUNCTIONS : List String :=
  ["os.remove", "os.rmdir", "shutil.rmtree", "subprocess.call",
   "subprocess.run", "exec", "eval", "__import__", "open"]

/-- `ScriptValidator.DANGEROUS_IMPORTS` (generic profile). -/
def DANGEROUS_IMPORTS : List String :=
  ["subprocess", "sys", "importlib", "urllib",
   "requests", "webbrowser", "socket", "ftplib"]

/-- `ScriptValidator.validate_script`. -/
def validate_script (s : Script) : Verdict :=
  validateWith DANGEROUS_IMPORTS DANGEROUS_FUNCTIONS s

end ScriptValidator

namespace FusionScriptValidator

/-- `FusionScriptValidator.DANGEROUS_FUNCTIONS` (host-embedded profile). -/
def DANGEROUS_FUNCTIONS : List String := ["exec", "eval", "__import__"]

/-- `FusionScriptValidator.DANGEROUS_IMPORTS` (host-embedded profile);
note the absence of `urllib`, present only in the generic profile. -/
def DANGEROUS_IMPORTS : List String :=
  ["subprocess", "sys", "importlib",
   "requests", "webbrowser", "socket", "ftplib"]

/-- `FusionScriptValidator.validate_script`. -/
def validate_script (s : Script) : Verdict :=
  validateWith DANGEROUS_IMPORTS DANGEROUS_FUNCTIONS s

end FusionScriptValidator

/-!
## Execution sandbox (`CommandExecutor.execute_script`)

The process-wide `sys.stdout` / `sys.stderr` channels are modelled as an
explicit `SysState` threaded through `execute_script`; a channel value is
either one of the original channels or one of the private `StringIO`
capture buffers the method creates.  The effect of CPython's
`exec(script, exec_globals)` is a parameter `run` (the model interpreter
`pyRun` below instantiates it for the scripts the theorems evaluate):
`exec` either completes normally, leaving text in the two capture buffers,
or raises an exception `e`, in which case `str(e)` and the buffer contents
at the moment of the raise are reported.
-/

inductive Channel where
  | original (tag : Nat)
  | captureBuffer (tag : Nat)
  deriving DecidableEq, Repr

/-- The pair (`sys.stdout`, `sys.stderr`). -/
structure SysState where
  stdout : Channel
  stderr : Channel
  deriving DecidableEq, Repr

/-- The observable effect of one `exec` of a script. -/
inductive RunResult where
  | ok (out errOut : String)
  | exn (msg : String) (out errOut : String)
  deriving DecidableEq, Repr

/-- The execution-result dictionary returned by `execute_script`.
`error_output = none` models the dictionary that lacks the
`'error_output'` key (the validation-failure return); `result = some ()`
stands for the `exec_globals` namespace, `none` for Python `None`. -/
structure ExecDict where
  success : Bool
  error : Option String
  details : Verdict
  output : String
  error_output : Option String
  result : Option Unit
  deriving DecidableEq, Repr

/-- The dictionary returned when validation fails:
`{'success': False, 'error': 'Script validation failed', 'details': ...,
'output': '', 'result': None}` (no `'error_output'` key). -/
def validationFailedDict (vr : Verdict) : ExecDict :=
  { success := false, error := some "Script validation failed", details := vr,
    output := "", error_output := none, result := none }

namespace CommandExecutor

/-- `CommandExecutor.execute_script`: validate first and return the
validation-failure dictionary without touching the channels when the
verdict is unsafe; otherwise save the two channels, redirect them to fresh
capture buffers, run the script, restore the saved channels on both the
normal and the exceptional path, and build the corresponding result
dictionary.  In the exceptional branch the `'error'` entry is `str(e)` and
`'error_output'` is the captured stderr (the capture buffers exist in
`locals()` whenever `exec` was reached). -/
def execute_script (run : Script → SysState → RunResult) (s : Script)
    (sys : SysState) : ExecDict × SysState :=
  let vr := ScriptValidator.validate_script s
  if vr.is_safe = false then
    (validationFailedDict vr, sys)
  else
    let old_stdout := sys.stdout
    let old_stderr := sys.stderr
    let redirected : SysState := ⟨Channel.captureBuffer 0, Channel.captureBuffer 1⟩
    match run s redirected with
    | .ok out errOut =>
        ({ success := true, error := none, details := vr, output := out,
           error_output := some errOut, result := some () },
         ⟨old_stdout, old_stderr⟩)
    | .exn msg out errOut =>
        ({ success := false, error := some msg, details := vr, output := out,
           error_output := some errOut, result := none },
         ⟨old_stdout, old_stderr⟩)

end CommandExecutor

/-!
## The sandbox namespace and a model interpreter

`execute_script` builds `exec_globals` with an explicit `'__builtins__'`
dictionary; `allowedBuiltinNames` lists its keys exactly as written in the
source (note the final `'__import__': __import__` entry).  When no
`fusion_app` handle is supplied, the mock modules `adsk`, `core`, `fusion`
and `cam` are bound as well.
-/

/-- The keys of the allow-listed `'__builtins__'` dictionary of
`CommandExecutor.execute_script`. -/
def allowedBuiltinNames : List String :=
  ["print", "len", "range", "enumerate", "zip", "map", "filter", "sum",
   "min", "max", "abs", "round", "str", "int", "float", "bool", "list",
   "dict", "tuple", "set", "frozenset", "type", "isinstance", "issubclass",
   "hasattr", "getattr", "setattr", "delattr", "dir", "vars", "id", "hash",
   "callable", "iter", "next", "reversed", "sorted", "all", "any",
   "divmod", "pow", "chr", "ord", "hex", "oct", "bin", "complex",
   "property", "staticmethod", "classmethod", "super", "object",
   "__import__"]

/-- Runtime values of the model interpreter: an allow-listed builtin, a
string, Python `None`, a `MockModule` instance (its `_name` plus the
attributes set explicitly on it), or the function object that
`MockModule.__getattr__` returns (a lambda whose `__name__` was set to the
looked-up attribute name). -/
inductive PyVal where
  | builtin (bname : String)
  | pystr (s : String)
  | noneV
  | mockObj (mname : String) (attrs : List (String × PyVal))
  | mockFn (parent : String) (attr : String)

/-- Exceptions the model interpreter can produce; `unsupported` marks a
construct outside the modelled subset (no theorem depends on it). -/
inductive PyExn where
  | nameError (n : String)
  | typeError (msg : String)
  | attributeError (n : String)
  | unsupported
  deriving DecidableEq, Repr

/-- Association-list lookup (Python dictionary lookup). -/
def lookupVal : List (String × PyVal) → String → Option PyVal
  | [], _ => none
  | (k, v) :: rest, n => if k = n then some v else lookupVal rest n

/-- The dunder prefix tested by `MockModule.__getattr__`. -/
def dunderPrefix : String := "__"

/-- `str(e)` for a `NameError`: `name '<n>' is not defined`. -/
def nameErrorMsg (n : String) : String :=
  "name " ++ squote ++ n ++ squote ++ " is not defined"

/-- `str(e)` for the `TypeError` raised on calling a non-callable:
`'<type>' object is not callable`. -/
def notCallableMsg (tname : String) : String :=
  squote ++ tname ++ squote ++ " object is not callable"

/-- Attribute access on a mock value.  On a `MockModule` instance, the
instance dictionary (`_name` and any explicitly set attribute) is
consulted first; otherwise `__getattr__` runs: a dunder name raises
`AttributeError(name)`, any other name returns the lambda
`lambda *args, **kwargs: MockModule(f"{self._name}.{name}")` with its
`__name__` set to `name`.  On that returned function object only the
`__name__` attribute is available; any plain name raises
`AttributeError` (Python function objects carry no such attributes).
Dunder attributes that CPython resolves on the type (`__class__`, ...) are
outside the modelled subset; no theorem touches them. -/
def mockGetattr : PyVal → String → Except PyExn PyVal
  | .mockObj mn attrs, a =>
      if a = "_name" then .ok (.pystr mn)
      else
        match lookupVal attrs a with
        | some v => .ok v
        | none =>
            if dunderPrefix.toList.isPrefixOf a.toList then .error (.attributeError a)
            else .ok (.mockFn mn a)
  | .mockFn _ a, x =>
      if x = "__name__" then .ok (.pystr a)
      else .error (.attributeError x)
  | _, _ => .error .unsupported

/-- Calling a mock value: the lambda returned by `__getattr__` builds a
fresh `MockModule(f"{parent}.{attr}")`; a `MockModule` instance defines no
`__call__`, so calling it raises
`TypeError("'MockModule' object is not callable")`; likewise a string is
not callable. -/
def mockCall : PyVal → Except PyExn PyVal
  | .mockFn p a => .ok (.mockObj (p ++ "." ++ a) [])
  | .mockObj _ _ => .error (.typeError (notCallableMsg "MockModule"))
  | .pystr _ => .error (.typeError (notCallableMsg "str"))
  | _ => .error .unsupported

/-- The mock `adsk` module built when `fusion_app` is absent:
`MockModule("adsk")` with `core`, `fusion` and `cam` set explicitly. -/
def mockAdsk : PyVal :=
  .mockObj "adsk"
    [("core", .mockObj "adsk.core" []),
     ("fusion", .mockObj "adsk.fusion" []),
     ("cam", .mockObj "adsk.cam" [])]

/-- The global bindings `exec_globals` receives beside `'__builtins__'`
in the no-host branch of `execute_script`. -/
def execGlobals : List (String × PyVal) :=
  [("adsk", mockAdsk),
   ("core", .mockObj "adsk.core" []),
   ("fusion", .mockObj "adsk.fusion" []),
   ("cam", .mockObj "adsk.cam" [])]

/-- The two capture buffers (`stdout_capture`, `stderr_capture`). -/
structure Buf where
  out : String
  err : String
  deriving DecidableEq, Repr

/-- `str()` of a value, for `print` arguments; only strings are modelled. -/
def strOfVal : PyVal → Option String
  | .pystr s => some s
  | _ => none

/-- `" ".join`, as `print` separates its arguments. -/
def joinSpace : List String → String
  | [] => ""
  | [s] => s
  | s :: rest => s ++ " " ++ joinSpace rest

/-- Application of an evaluated callee to evaluated arguments.  Of the
allow-listed builtins only `print` (write the space-joined arguments and a
newline to the redirected stdout, return `None`) is modelled. -/
def applyVal (fv : PyVal) (vs : List PyVal) (b : Buf) :
    Except PyExn PyVal × Buf :=
  match fv with
  | .builtin bn =>
      if bn = "print" then
        match vs.mapM strOfVal with
        | some strs => (.ok .noneV, { b with out := b.out ++ joinSpace strs ++ "\n" })
        | none => (.error .unsupported, b)
      else (.error .unsupported, b)
  | .mockFn p a => (.ok (.mockObj (p ++ "." ++ a) []), b)
  | .mockObj _ _ => (.error (.typeError (notCallableMsg "MockModule")), b)
  | .pystr _ => (.error (.typeError (notCallableMsg "str")), b)
  | .noneV => (.error .unsupported, b)

mutual

/-- Expression evaluation under globals `g`.  `LOAD_NAME` resolution
follows CPython's `exec(script, exec_globals)`: the globals dictionary
first, then the `'__builtins__'` dictionary, else
`NameError("name '<n>' is not defined")`.  A call evaluates its callee
before its arguments, as CPython does. -/
def evalExpr (g : List (String × PyVal)) : PyAst → Buf → Except PyExn PyVal × Buf
  | .name n, b =>
      (match lookupVal g n with
       | some v => .ok v
       | none =>
          if n ∈ allowedBuiltinNames then .ok (.builtin n)
          else .error (.nameError n), b)
  | .constStr s, b => (.ok (.pystr s), b)
  | .attributeAccess v a, b =>
      match evalExpr g v b with
      | (.ok w, b1) => (mockGetattr w a, b1)
      | (.error e, b1) => (.error e, b1)
  | .call f args, b =>
      (match evalExpr g f b with
       | (.error e, b1) => (.error e, b1)
       | (.ok fv, b1) =>
          match evalArgs g args b1 with
          | (.error e, b2) => (.error e, b2)
          | (.ok vs, b2) => applyVal fv vs b2)
  | _, b => (.error .unsupported, b)

/-- Left-to-right evaluation of a call's argument list. -/
def evalArgs (g : List (String × PyVal)) : List PyAst → Buf → Except PyExn (List PyVal) × Buf
  | [], b => (.ok [], b)
  | e :: rest, b =>
      match evalExpr g e b with
      | (.error ex, b1) => (.error ex, b1)
      | (.ok v, b1) =>
          match evalArgs g rest b1 with
          | (.error ex, b2) => (.error ex, b2)
          | (.ok vs, b2) => (.ok (v :: vs), b2)

end

/-- One statement.  A `raise` first evaluates its operand; an exception
during that evaluation (e.g. the `NameError` from an undefined exception
class) propagates before anything is raised.  Raising a successfully
evaluated value, and the remaining statement forms, are outside the
modelled subset. -/
def execStmt (g : List (String × PyVal)) : PyAst → Buf → Except PyExn Unit × Buf
  | .exprStmt e, b =>
      (match evalExpr g e b with
       | (.ok _, b1) => (.ok (), b1)
       | (.error ex, b1) => (.error ex, b1))
  | .raiseStmt (some e), b =>
      (match evalExpr g e b with
       | (.error ex, b1) => (.error ex, b1)
       | (.ok _, b1) => (.error .unsupported, b1))
  | _, b => (.error .unsupported, b)

/-- A module body, stopping at the first exception. -/
def execStmts (g : List (String × PyVal)) : List PyAst → Buf → Except PyExn Unit × Buf
  | [], b => (.ok (), b)
  | s :: rest, b =>
      match execStmt g s b with
      | (.ok _, b1) => execStmts g rest b1
      | (.error ex, b1) => (.error ex, b1)

/-- `str(e)` of a model exception. -/
def exnMessage : PyExn → String
  | .nameError n => nameErrorMsg n
  | .typeError m => m
  | .attributeError n => n
  | .unsupported => "unmodelled construct"

/-- The model of `exec(script, exec_globals)` in the no-host branch,
with the channels already redirected to the capture buffers: run the
parsed body under `execGlobals`; report the buffers on completion, or
`str(e)` plus the buffers at the raise.  (The parse-failure case is
unreachable behind the validation gate, which already rejects
syntactically invalid scripts.) -/
def pyRun (s : Script) (_redirected : SysState) : RunResult :=
  match s.parse with
  | .error msg => .exn ("Syntax error: " ++ msg) "" ""
  | .ok body =>
      match execStmts execGlobals body ⟨"", ""⟩ with
      | (.ok _, b) => .ok b.out b.err
      | (.error ex, b) => .exn (exnMessage ex) b.out b.err

/-!
## Orchestrator (`FusionMCP.process_request`)

The collaborators are abstracted as inputs: `pluginRes` is the value of
`self.plugin_manager.execute_plugin_if_appropriate(user_request)`, `gen`
the script text from `generate_fusion_script`, `fix` the corrective
rewrite `validate_and_fix_script(script, error_output)`, and `execS` the
command executor applied to a script text (with `self.fusion_app` fixed).
The request text itself only feeds the context log and those
collaborators, so it does not appear as a separate argument; the two
`add_interaction` calls go to the out-of-scope history collaborator and
are not modelled.  Alongside the returned dictionary the model records one
`Event` per executor / repair-collaborator invocation, in order, so the
number of executions and repair attempts is part of the result.
-/

/-- A plugin outcome dictionary; `rest` stands for whatever further keys a
concrete plugin returns. -/
structure PluginDict where
  success : Bool
  error : Option String
  rest : List (String × String)
  deriving DecidableEq, Repr

/-- The collaborator invocations `process_request` performs on the script
path: each run of the command executor, and the single corrective-rewrite
request (carrying the failed script and the error text handed to the AI). -/
inductive Event where
  | executedScript (script : String)
  | repairRequested (script : String) (errText : Option String)
  deriving DecidableEq, Repr

/-- The dictionary `process_request` returns.  The plugin path returns
`{'type': 'plugin_result', 'plugin_result': ..., 'script_generated':
False, 'execution_result': None}`; the script path returns
`{'type': 'fusion_script', 'script_generated': True, 'generated_script':
script, 'execution_result': ...}` (no `'plugin_result'` key, hence
`none`). -/
structure ProcessOut where
  rtype : String
  plugin_result : Option PluginDict
  script_generated : Bool
  generated_script : Option String
  execution_result : Option ExecDict
  deriving DecidableEq, Repr

/-- The truth test `if plugin_result and plugin_result['success']`
(`None` is falsy; an outcome dictionary is non-empty, hence truthy). -/
def pluginTaken (p : Option PluginDict) : Bool :=
  match p with
  | some r => r.success
  | none => false

/-- `execution_result.get('error_output', execution_result.get('error',
'Unknown error'))`: both result dictionaries always carry an `'error'`
key, so the inner `get` yields its value (possibly Python `None`) and the
`'Unknown error'` default is dead; the outer `get` falls back to it only
when the `'error_output'` key is absent (the validation-failure
dictionary). -/
def repairErrArg (d : ExecDict) : Option String :=
  match d.error_output with
  | some s => some s
  | none => d.error

/-- `FusionMCP.process_request`: try the plugin short-circuit; otherwise
generate a script, execute it, and — only if that execution reports
failure — request one corrective rewrite and execute the rewrite, the
second outcome becoming the final `execution_result` unconditionally. -/
def process_request (pluginRes : Option PluginDict) (gen : String)
    (fix : String → Option String → String) (execS : String → ExecDict) :
    ProcessOut × List Event :=
  if pluginTaken pluginRes then
    ({ rtype := "plugin_result", plugin_result := pluginRes,
       script_generated := false, generated_script := none,
       execution_result := none }, [])
  else
    let script := gen
    let r1 := execS script
    if r1.success then
      ({ rtype := "fusion_script", plugin_result := none,
         script_generated := true, generated_script := some script,
         execution_result := some r1 },
       [Event.executedScript script])
    else
      let errText := repairErrArg r1
      let fixedScript := fix script errText
      let r2 := execS fixedScript
      ({ rtype := "fusion_script", plugin_result := none,
         script_generated := true, generated_script := some script,
         execution_result := some r2 },
       [Event.executedScript script,
        Event.repairRequested script errText,
        Event.executedScript fixedScript])

/-- Recognises the repair-request events in a trace. -/
def isRepairEvent : Event → Bool
  | .repairRequested _ _ => true
  | _ => false

/-!
## Plugin registry (`PluginManager.execute_plugin`)
-/

/-- A plugin's parameter dictionary (opaque string-keyed values). -/
def Params : Type := List (String × String)

/-- Registry lookup, modelling `name not in self.plugins` /
`self.plugins[name]`. -/
def lookupPlugin : List (String × (Params → PluginDict)) → String →
    Option (Params → PluginDict)
  | [], _ => none
  | (k, f) :: rest, n => if k = n then some f else lookupPlugin rest n

/-- The error text `f"Plugin '{name}' not found"`. -/
def pluginNotFoundMsg (pname : String) : String :=
  "Plugin " ++ squote ++ pname ++ squote ++ " not found"

namespace PluginManager

/-- `PluginManager.execute_plugin`: a missing name yields
`{'success': False, 'error': f"Plugin '{name}' not found"}`; a registered
plugin's `execute(params)` result is returned.  The `Option` return type
mirrors the method's `Optional[Dict]` annotation; both `return`
statements produce a dictionary. -/
def execute_plugin (plugins : List (String × (Params → PluginDict)))
    (pname : String) (params : Params) : Option PluginDict :=
  match lookupPlugin plugins pname with
  | none => some { success := false, error := some (pluginNotFoundMsg pname), rest := [] }
  | some f => some (f params)

end PluginManager

/-!
## Proof infrastructure: a closed form for the validator's node pass

Each walked node contributes a list of errors that depends only on the
node and the denylists; the fold appends those lists and keeps `is_safe`
exactly while no error has been appended.
-/

/-- The errors a single walked node contributes. -/
def nodeErrors (di df : List String) : PyAst → List String
  | .importS ns =>
      ns.filterMap (fun a => if a ∈ di then some (importErr a) else none)
  | .importFrom (some mm) _ => if mm ∈ di then [importFromErr mm] else []
  | .importFrom none _ => []
  | .call f _ =>
      if getFunctionName f ∈ df then [callErr (getFunctionName f)] else []
  | _ => []

/-- All errors contributed by a list of walked nodes, in visit order. -/
def collectErrors (di df : List String) : List PyAst → List String
  | [] => []
  | n :: rest => nodeErrors di df n ++ collectErrors di df rest

theorem isEmpty_append (l1 l2 : List String) :
    (l1 ++ l2).isEmpty = (l1.isEmpty && l2.isEmpty) := by
  cases l1 <;> simp

theorem importFold_eq (di : List String) : ∀ (ns : List String) (v : Verdict),
    ns.foldl (fun v a =>
        if a ∈ di then
          { v with errors := v.errors ++ [importErr a], is_safe := false }
        else v) v
      = ⟨v.is_safe
           && (ns.filterMap (fun a => if a ∈ di then some (importErr a) else none)).isEmpty,
         v.errors ++ ns.filterMap (fun a => if a ∈ di then some (importErr a) else none),
         v.warnings⟩
  | [], v => by simp
  | a :: ns, v => by
      by_cases h : a ∈ di
      · simp [h, importFold_eq di ns]
      · simp [h, importFold_eq di ns]

theorem checkNode_eq (di df : List String) (v : Verdict) (n : PyAst) :
    checkNode di df v n
      = ⟨v.is_safe && (nodeErrors di df n).isEmpty,
         v.errors ++ nodeErrors di df n, v.warnings⟩ := by
  cases n with
  | importS ns => simpa [checkNode, nodeErrors] using importFold_eq di ns v
  | importFrom m ns =>
      cases m with
      | some mm => by_cases h : mm ∈ di <;> simp [checkNode, nodeErrors, h]
      | none => simp [checkNode, nodeErrors]
  | call f args =>
      by_cases h : getFunctionName f ∈ df <;> simp [checkNode, nodeErrors, h]
  | name i => simp [checkNode, nodeErrors]
  | attributeAccess w a => simp [checkNode, nodeErrors]
  | constStr t => simp [checkNode, nodeErrors]
  | exprStmt e => simp [checkNode, nodeErrors]
  | raiseStmt e => simp [checkNode, nodeErrors]
  | functionDef f b => simp [checkNode, nodeErrors]

theorem foldl_checkNode_eq (di df : List String) :
    ∀ (l : List PyAst) (v : Verdict),
    l.foldl (checkNode di df) v
      = ⟨v.is_safe && (collectErrors di df l).isEmpty,
         v.errors ++ collectErrors di df l, v.warnings⟩
  | [], v => by simp [collectErrors]
  | n :: l, v => by
      rw [List.foldl_cons, checkNode_eq, foldl_checkNode_eq di df l]
      simp [collectErrors, Bool.and_assoc, isEmpty_append]

theorem validate_ok_eq (di df : List String) (s : Script) (body : List PyAst)
    (h : s.parse = .ok body) :
    validateWith di df s
      = ⟨(collectErrors di df (walkList body)).isEmpty,
         collectErrors di df (walkList body),
         lineWarnings (splitLines s.text)⟩ := by
  unfold validateWith
  rw [h]
  simp [foldl_checkNode_eq]

theorem mem_collectErrors (di df : List String) {e : String} {n : PyAst}
    {l : List PyAst} (hn : n ∈ l) (he : e ∈ nodeErrors di df n) :
    e ∈ collectErrors di df l := by
  induction l with
  | nil => cases hn
  | cons a l ih =>
      rcases List.mem_cons.mp hn with h | h
      · subst h
        exact List.mem_append.mpr (Or.inl he)
      · exact List.mem_append.mpr (Or.inr (ih h))

/-!
## Concrete scripts and states used by the witnesses and counterexamples
-/

/-- A syntactically invalid source text (`ast.parse` raises). -/
def badScript : Script := { text := "def f(", parse := .error "invalid syntax" }

/-- A runner that is never reached by the short-circuit theorems. -/
def runNothing : Script → SysState → RunResult := fun _ _ => .ok "" ""

/-- An initial channel state: the process's original stdout and stderr. -/
def sysInit : SysState := ⟨Channel.original 0, Channel.original 1⟩

/-- `import socket` nested inside a function body. -/
def nestedSocketScript : Script :=
  { text := "def f():\n    import socket",
    parse := .ok [.functionDef "f" [.importS ["socket"]]] }

/-- The source text `import urllib` and its parse. -/
def urllibScript : Script :=
  { text := "import urllib", parse := .ok [.importS ["urllib"]] }

/-- `import subprocess` followed by `eval(x)`, and its parse. -/
def subprocessEvalScript : Script :=
  { text := "import subprocess\neval(x)",
    parse := .ok [.importS ["subprocess"],
                  .exprStmt (.call (.name "eval") [.name "x"])] }

/-- The source text `raise RuntimeError("boom")` and its parse. -/
def boomScript : Script :=
  { text := "raise RuntimeError(\"boom\")",
    parse := .ok [.raiseStmt (some (.call (.name "RuntimeError") [.constStr "boom"]))] }

/-!
## Claims
-/

/-- **C1.**  For every source text whose validation verdict has
`is_safe = false`, `execute_script` returns an outcome with
`success = false`, empty captured output, and the error summary
`'Script validation failed'` embedding the verdict, leaving the channel
state untouched; the result is the same for every runner `run`, i.e. the
script body is never executed.  Moreover every syntactically invalid
source text gets `is_safe = false` from validation, so its execution
short-circuits this way. -/
theorem execute_script_short_circuits_on_unsafe_verdict
    (run : Script → SysState → RunResult) (s : Script) (sys : SysState) :
    ((ScriptValidator.validate_script s).is_safe = false →
      CommandExecutor.execute_script run s sys
        = (validationFailedDict (ScriptValidator.validate_script s), sys)) ∧
    (∀ msg, s.parse = .error msg →
      (ScriptValidator.validate_script s).is_safe = false) := by
  constructor
  · intro h
    unfold CommandExecutor.execute_script
    simp [h]
  · intro msg h
    unfold ScriptValidator.validate_script validateWith
    rw [h]

/-- Witness for C1: the unparseable text `def f(` is rejected by
validation and `execute_script` returns the validation-failure record
without running anything. -/
theorem execute_script_short_circuits_on_unsafe_verdict_witness :
    (ScriptValidator.validate_script badScript).is_safe = false ∧
    CommandExecutor.execute_script runNothing badScript sysInit
      = (validationFailedDict (ScriptValidator.validate_script badScript), sysInit) := by
  have h := execute_script_short_circuits_on_unsafe_verdict runNothing badScript sysInit
  have hs := h.2 "invalid syntax" rfl
  exact ⟨hs, h.1 hs⟩

/-- **C2.**  Whenever the parsed tree contains — at any depth — an
`import` statement naming a member `m` of the generic denylist,
`ScriptValidator.validate_script` returns `is_safe = false` with the
error `Dangerous import found: <m>` among its errors. -/
theorem validate_flags_dangerous_import_anywhere
    (s : Script) (body : List PyAst) (ns : List String) (m : String)
    (h1 : s.parse = .ok body)
    (h2 : PyAst.importS ns ∈ walkList body)
    (h3 : m ∈ ns) (h4 : m ∈ ScriptValidator.DANGEROUS_IMPORTS) :
    (ScriptValidator.validate_script s).is_safe = false ∧
    importErr m ∈ (ScriptValidator.validate_script s).errors := by
  have hmem : importErr m ∈ collectErrors ScriptValidator.DANGEROUS_IMPORTS
      ScriptValidator.DANGEROUS_FUNCTIONS (walkList body) := by
    refine mem_collectErrors _ _ h2 ?_
    simp only [nodeErrors]
    exact List.mem_filterMap.mpr ⟨m, h3, by simp [h4]⟩
  rw [ScriptValidator.validate_script,
    validate_ok_eq _ _ s body h1]
  refine ⟨?_, hmem⟩
  simpa using List.ne_nil_of_mem hmem

/-- Witness for C2: `import socket` nested inside a function body is
flagged. -/
theorem validate_flags_dangerous_import_anywhere_witness :
    (ScriptValidator.validate_script nestedSocketScript).is_safe = false ∧
    importErr "socket" ∈ (ScriptValidator.validate_script nestedSocketScript).errors :=
  validate_flags_dangerous_import_anywhere nestedSocketScript
    [.functionDef "f" [.importS ["socket"]]] ["socket"] "socket"
    rfl (by simp [walkList, walk]) (by simp) (by decide)

/-- **C3.**  For every source text, the verdict of
`ScriptValidator.validate_script` has `is_safe = false` exactly when its
error list is non-empty; and the warning pass cannot change `is_safe`:
the flag (and the error list) depend only on the parse result, not on the
raw text the line heuristic scans. -/
theorem validate_is_safe_iff_errors_nonempty (s : Script) :
    ((ScriptValidator.validate_script s).is_safe = false ↔
      (ScriptValidator.validate_script s).errors ≠ []) ∧
    (∀ t : String,
      (ScriptValidator.validate_script { text := t, parse := s.parse }).is_safe
        = (ScriptValidator.validate_script s).is_safe ∧
      (ScriptValidator.validate_script { text := t, parse := s.parse }).errors
        = (ScriptValidator.validate_script s).errors) := by
  cases hp : s.parse with
  | error msg =>
      constructor
      · unfold ScriptValidator.validate_script validateWith
        rw [hp]
        simp
      · intro t
        unfold ScriptValidator.validate_script validateWith
        rw [hp]
        exact ⟨rfl, rfl⟩
  | ok body =>
      have h2 := validate_ok_eq ScriptValidator.DANGEROUS_IMPORTS
        ScriptValidator.DANGEROUS_FUNCTIONS s body hp
      constructor
      · rw [ScriptValidator.validate_script, h2]
        cases hce : collectErrors ScriptValidator.DANGEROUS_IMPORTS
            ScriptValidator.DANGEROUS_FUNCTIONS (walkList body) <;> simp
      · intro t
        have h3 := validate_ok_eq ScriptValidator.DANGEROUS_IMPORTS
          ScriptValidator.DANGEROUS_FUNCTIONS { text := t, parse := Except.ok body } body rfl
        rw [ScriptValidator.validate_script, ScriptValidator.validate_script, h2, h3]
        exact ⟨rfl, rfl⟩

/-- **C5.**  `execute_script` leaves the process-wide channel state
exactly as it found it, on the validation-refusal path, on normal
completion, and when the script raises (for every runner). -/
theorem execute_script_restores_sys_channels
    (run : Script → SysState → RunResult) (s : Script) (sys : SysState) :
    (CommandExecutor.execute_script run s sys).2 = sys := by
  unfold CommandExecutor.execute_script
  cases h : (ScriptValidator.validate_script s).is_safe with
  | false => simp [h]
  | true =>
      simp only [h]
      cases run s ⟨Channel.captureBuffer 0, Channel.captureBuffer 1⟩ <;> simp

/-- **C4.**  In every request cycle the repair collaborator is consulted
at most once; and on the script path, if the first execution fails, the
trace is exactly: one execution of the generated script, one corrective
regeneration, one execution of the repaired script — whose outcome,
successful or not, is the final `execution_result`. -/
theorem process_request_single_repair_attempt
    (p : Option PluginDict) (gen : String)
    (fix : String → Option String → String) (execS : String → ExecDict) :
    ((process_request p gen fix execS).2.countP isRepairEvent ≤ 1) ∧
    (pluginTaken p = false → (execS gen).success = false →
      (process_request p gen fix execS).2
        = [Event.executedScript gen,
           Event.repairRequested gen (repairErrArg (execS gen)),
           Event.executedScript (fix gen (repairErrArg (execS gen)))] ∧
      (process_request p gen fix execS).1.execution_result
        = some (execS (fix gen (repairErrArg (execS gen))))) := by
  unfold process_request
  cases hp : pluginTaken p with
  | true => simp [List.countP, List.countP.go]
  | false =>
      cases hs : (execS gen).success with
      | true => simp [hs, List.countP, List.countP.go, isRepairEvent]
      | false => simp [hs, List.countP, List.countP.go, isRepairEvent]

/-- An always-failing first outcome for the C4 witness. -/
def failDict : ExecDict :=
  { success := false, error := some "division by zero",
    details := ⟨true, [], []⟩, output := "", error_output := some "",
    result := none }

/-- A succeeding outcome for the C4 witness. -/
def okDict : ExecDict :=
  { success := true, error := none, details := ⟨true, [], []⟩,
    output := "done\n", error_output := some "", result := some () }

/-- A repair collaborator that always proposes the script `B`. -/
def fixToB : String → Option String → String := fun _ _ => "B"

/-- An executor for which script `A` fails and every other script
succeeds. -/
def execAB : String → ExecDict := fun t => if t = "A" then failDict else okDict

/-- Witness for C4: with no plugin match, a first script `A` that fails
and a repaired script `B`, the trace holds exactly two executions and one
repair, and the final result is the second outcome. -/
theorem process_request_single_repair_attempt_witness :
    pluginTaken none = false ∧ (execAB "A").success = false ∧
    (process_request none "A" fixToB execAB).2
      = [Event.executedScript "A",
         Event.repairRequested "A" (repairErrArg (execAB "A")),
         Event.executedScript (fixToB "A" (repairErrArg (execAB "A")))] ∧
    (process_request none "A" fixToB execAB).1.execution_result
      = some (execAB (fixToB "A" (repairErrArg (execAB "A")))) := by
  have h := (process_request_single_repair_attempt none "A" fixToB execAB).2
    rfl (by decide)
  exact ⟨rfl, by decide, h.1, h.2⟩

/-- **C6 (counterexample).**  The claim says `__import__` is absent from
the namespace handed to the executed script; in fact the allow-listed
`'__builtins__'` dictionary of `execute_script` contains the key
`__import__` (bound to the real import function). -/
theorem sandbox_builtins_include_dunder_import :
    "__import__" ∈ allowedBuiltinNames := by decide

/-- **C6 (amended).**  The allow-listed builtins of the sandbox namespace
contain none of `open`, `exec`, `eval` — but they do contain
`__import__`, so the import mechanism is available to executed
scripts. -/
theorem sandbox_builtins_exclude_open_exec_eval_but_include_import :
    ("open" ∉ allowedBuiltinNames) ∧ ("exec" ∉ allowedBuiltinNames) ∧
    ("eval" ∉ allowedBuiltinNames) ∧ "__import__" ∈ allowedBuiltinNames := by
  decide

/-- **C7 (counterexample).**  The claim lists `import urllib` among the
imports the host-embedded validator rejects; in fact
`FusionScriptValidator.DANGEROUS_IMPORTS` lacks `urllib`, and
`validate_script` accepts the text `import urllib` with a clean
verdict. -/
theorem fusion_validator_accepts_urllib_import :
    (FusionScriptValidator.validate_script urllibScript).is_safe = true ∧
    (FusionScriptValidator.validate_script urllibScript).errors = [] := by
  refine ⟨by decide, by decide⟩

/-- **C7 (amended).**  The host-embedded validator flags exactly its own
denylists: any import — wherever it appears — of a member of
`{subprocess, sys, importlib, requests, webbrowser, socket, ftplib}`
(so not `urllib`), and any call whose resolved name is one of
`{exec, eval, __import__}`, each yielding `is_safe = false` with a
corresponding error. -/
theorem fusion_validator_flags_its_denylists
    (s : Script) (body : List PyAst) (h1 : s.parse = .ok body) :
    (∀ ns m, PyAst.importS ns ∈ walkList body → m ∈ ns →
      m ∈ FusionScriptValidator.DANGEROUS_IMPORTS →
      (FusionScriptValidator.validate_script s).is_safe = false ∧
      importErr m ∈ (FusionScriptValidator.validate_script s).errors) ∧
    (∀ f args, PyAst.call f args ∈ walkList body →
      getFunctionName f ∈ FusionScriptValidator.DANGEROUS_FUNCTIONS →
      (FusionScriptValidator.validate_script s).is_safe = false ∧
      callErr (getFunctionName f) ∈ (FusionScriptValidator.validate_script s).errors) := by
  constructor
  · intro ns m h2 h3 h4
    have hmem : importErr m ∈ collectErrors FusionScriptValidator.DANGEROUS_IMPORTS
        FusionScriptValidator.DANGEROUS_FUNCTIONS (walkList body) := by
      refine mem_collectErrors _ _ h2 ?_
      simp only [nodeErrors]
      exact List.mem_filterMap.mpr ⟨m, h3, by simp [h4]⟩
    rw [FusionScriptValidator.validate_script,
      validate_ok_eq _ _ s body h1]
    refine ⟨?_, hmem⟩
    simpa using List.ne_nil_of_mem hmem
  · intro f args h2 h4
    have hmem : callErr (getFunctionName f) ∈ collectErrors
        FusionScriptValidator.DANGEROUS_IMPORTS
        FusionScriptValidator.DANGEROUS_FUNCTIONS (walkList body) := by
      refine mem_collectErrors _ _ h2 ?_
      simp [nodeErrors, h4]
    rw [FusionScriptValidator.validate_script,
      validate_ok_eq _ _ s body h1]
    refine ⟨?_, hmem⟩
    simpa using List.ne_nil_of_mem hmem

/-- Witness for the amended C7 at the text
`import subprocess` / `eval(x)`: both the denylisted import and the
denylisted call are flagged. -/
theorem fusion_validator_flags_its_denylists_witness :
    ((FusionScriptValidator.validate_script subprocessEvalScript).is_safe = false ∧
      importErr "subprocess" ∈ (FusionScriptValidator.validate_script subprocessEvalScript).errors) ∧
    ((FusionScriptValidator.validate_script subprocessEvalScript).is_safe = false ∧
      callErr (getFunctionName (.name "eval"))
        ∈ (FusionScriptValidator.validate_script subprocessEvalScript).errors) := by
  have h := fusion_validator_flags_its_denylists subprocessEvalScript
    [.importS ["subprocess"], .exprStmt (.call (.name "eval") [.name "x"])] rfl
  exact ⟨h.1 ["subprocess"] "subprocess" (by simp [walkList, walk]) (by simp) (by decide),
         h.2 (.name "eval") [.name "x"] (by simp [walkList, walk]) (by decide)⟩

/-- **C8 (counterexample).**  On the policy-safe text
`raise RuntimeError("boom")` the executor does report `success = false`,
but the error summary is the `NameError` text
`name 'RuntimeError' is not defined` — `RuntimeError` is not among the
allow-listed builtins of the sandbox namespace — and neither the summary
nor the captured stderr contains `boom`. -/
theorem boom_script_error_summary_lacks_boom :
    (CommandExecutor.execute_script pyRun boomScript sysInit).1.success = false ∧
    (CommandExecutor.execute_script pyRun boomScript sysInit).1.error
      = some (nameErrorMsg "RuntimeError") ∧
    containsSub (nameErrorMsg "RuntimeError") "boom" = false ∧
    (CommandExecutor.execute_script pyRun boomScript sysInit).1.error_output
      = some "" := by
  refine ⟨by decide, by decide, by decide, by decide⟩

/-- **C8 (amended).**  For the source text `raise RuntimeError("boom")`,
`execute_script` returns `success = false` with the error summary
`name 'RuntimeError' is not defined`, which names `RuntimeError` (but not
`boom`), because the allow-listed builtins exclude the exception
classes. -/
theorem boom_script_reports_undefined_runtime_error :
    (CommandExecutor.execute_script pyRun boomScript sysInit).1.success = false ∧
    (CommandExecutor.execute_script pyRun boomScript sysInit).1.error
      = some (nameErrorMsg "RuntimeError") ∧
    containsSub (nameErrorMsg "RuntimeError") "RuntimeError" = true := by
  refine ⟨by decide, by decide, by decide⟩

/-- **C9 (counterexample).**  The claim says every stand-in is callable
and every attribute access on a stand-in returns another stand-in; in
fact a `MockModule` instance (such as the bound `adsk`) is not callable —
calling it raises `TypeError` — and a two-step attribute chain
`adsk.core.Application.get` fails, because the first access returns a
function object on which the second access raises `AttributeError`. -/
theorem mock_standins_not_callable_and_chains_fail :
    mockCall mockAdsk = .error (.typeError (notCallableMsg "MockModule")) ∧
    mockGetattr mockAdsk "core" = .ok (PyVal.mockObj "adsk.core" []) ∧
    mockGetattr (PyVal.mockObj "adsk.core" []) "Application"
      = .ok (.mockFn "adsk.core" "Application") ∧
    mockGetattr (PyVal.mockFn "adsk.core" "Application") "get"
      = .error (.attributeError "get") :=
  ⟨rfl, rfl, rfl, rfl⟩

/-- **C9 (amended).**  Attribute access on a `MockModule` stand-in (for a
plain name that is not set on the instance) returns a callable function
object — not another stand-in — and calling that function returns a fresh
`MockModule`; the `MockModule` instances themselves are never callable.
Thus only chains alternating a single attribute access with a call
succeed without a real host. -/
theorem mock_getattr_returns_callable_not_standin
    (n a : String) (attrs : List (String × PyVal))
    (h1 : lookupVal attrs a = none)
    (h2 : dunderPrefix.toList.isPrefixOf a.toList = false)
    (h3 : a ≠ "_name") :
    mockGetattr (PyVal.mockObj n attrs) a = .ok (.mockFn n a) ∧
    mockCall (PyVal.mockFn n a) = .ok (.mockObj (n ++ "." ++ a) []) ∧
    (∀ m as2, mockCall (PyVal.mockObj m as2)
      = .error (.typeError (notCallableMsg "MockModule"))) := by
  refine ⟨?_, rfl, fun m as2 => rfl⟩
  have h2a : ¬ (dunderPrefix.toList <+: a.toList) := by
    intro hpre
    rw [List.isPrefixOf_iff_prefix.mpr hpre] at h2
    exact Bool.noConfusion h2
  simp [mockGetattr, h1, h3]
  exact h2a

/-- Witness for the amended C9 at `MockModule("adsk")` and the attribute
`Application`. -/
theorem mock_getattr_returns_callable_not_standin_witness :
    mockGetattr (PyVal.mockObj "adsk" []) "Application"
      = .ok (.mockFn "adsk" "Application") ∧
    mockCall (PyVal.mockFn "adsk" "Application")
      = .ok (.mockObj ("adsk" ++ "." ++ "Application") []) ∧
    (∀ m as2, mockCall (PyVal.mockObj m as2)
      = .error (.typeError (notCallableMsg "MockModule"))) :=
  mock_getattr_returns_callable_not_standin "adsk" "Application" []
    rfl (by decide) (by decide)

theorem containsSubAux_of_leading {sub l : List Char} (h : sub <+: l) :
    containsSubAux sub l = true := by
  cases l with
  | nil =>
      have : sub = [] := List.prefix_nil.mp h
      simp [containsSubAux, this]
  | cons c t =>
      unfold containsSubAux
      simp [List.isPrefixOf_iff_prefix.mpr h]

theorem containsSubAux_append {sub l2 : List Char} (l1 : List Char)
    (h : containsSubAux sub l2 = true) :
    containsSubAux sub (l1 ++ l2) = true := by
  induction l1 with
  | nil => simpa
  | cons c t ih =>
      unfold containsSubAux
      simp [ih]

theorem containsSub_pluginNotFoundMsg (pname : String) :
    containsSub (pluginNotFoundMsg pname) pname = true := by
  unfold containsSub pluginNotFoundMsg
  have hl : ("Plugin " ++ squote ++ pname ++ squote ++ " not found").toList
      = ("Plugin " ++ squote).toList
          ++ (pname.toList ++ (squote ++ " not found").toList) := by
    simp [String.toList, String.data_append]
  rw [hl]
  exact containsSubAux_append _ (containsSubAux_of_leading (List.prefix_append _ _))

/-- **C10.**  `PluginManager.execute_plugin` never returns `None`
(despite its `Optional` annotation), and for every name missing from the
registry it returns the dictionary `success = false` with the error
`Plugin '<name>' not found`, whose text contains the missing name. -/
theorem execute_plugin_missing_name_returns_error_dict
    (plugins : List (String × (Params → PluginDict)))
    (pname : String) (params : Params) :
    (PluginManager.execute_plugin plugins pname params ≠ none) ∧
    (lookupPlugin plugins pname = none →
      PluginManager.execute_plugin plugins pname params
        = some { success := false, error := some (pluginNotFoundMsg pname),
                 rest := [] } ∧
      containsSub (pluginNotFoundMsg pname) pname = true) := by
  constructor
  · unfold PluginManager.execute_plugin
    cases lookupPlugin plugins pname <;> simp
  · intro h
    unfold PluginManager.execute_plugin
    rw [h]
    exact ⟨rfl, containsSub_pluginNotFoundMsg pname⟩

/-- Witness for C10: the empty registry and the name `ghost`. -/
theorem execute_plugin_missing_name_returns_error_dict_witness :
    (PluginManager.execute_plugin [] "ghost" ([] : Params) ≠ none) ∧
    (PluginManager.execute_plugin [] "ghost" ([] : Params)
      = some { success := false, error := some (pluginNotFoundMsg "ghost"),
               rest := [] } ∧
     containsSub (pluginNotFoundMsg "ghost") "ghost" = true) := by
  have h := execute_plugin_missing_name_returns_error_dict [] "ghost" ([] : Params)
  exact ⟨h.1, h.2 rfl⟩

end FusionMCP
